import Mathlib

/-!
Shallow embedding of the WeChat session-keeper activity scheduler and
settings store (the class WeChatSessionKeeper in the content script, plus
the simpler Firefox dist variant), together with theorems settling the
specification claims about them.

Conventions of the embedding:
* JS millisecond timestamps and durations are `Int` (a JS number can be
  negative; fractional parts play no role in any claim).
* `this.config` is the `Config` structure; the object-spread merge
  `(... base, ... patch)` is `mergeConfig`.  Because a spread copies every
  enumerable key of the patch, fields outside the five documented ones are
  kept in the `extra` association list.
* `localStorage` under the single config key is `StoredValue`; a read can
  find nothing (`absent`), a string JSON.parse rejects (`malformed`), or a
  parsed record.  Fallible JS operations are `Except JsError`; a JS
  try/catch is an explicit `match` on the `Except`.
* DOM side effects (scroll perturbation, synthetic event dispatch, the
  heartbeat storage pulse) are abstracted to the `SyntheticAction` actually
  performed; the `Env` record says which host primitives would throw, which
  host the page is on, whether the document is hidden, and the value of
  `Math.floor(Math.random() * 3)`.
-/

namespace SessionKeeper

/-- Kinds of synthetic activity the keeper can perform (which DOM/storage
side effect runs). -/
inductive SyntheticAction where
  | scrollRestore
  | minimalScroll
  | storagePulse
  | mouseMove
  | focusDispatch
deriving DecidableEq, Repr

/-- Errors a host primitive can throw. -/
inductive JsError where
  | parseError
  | storageError
  | scrollError
  | dispatchError
deriving DecidableEq, Repr

/-- The in-memory `this.config` object.  The five documented fields, plus
the extra enumerable keys a spread merge preserves from a persisted record
(unknown-field names paired with their serialized values). -/
structure Config where
  riskLevel : String
  enableWebSocketMonitor : Bool
  enableBackgroundKeepAlive : Bool
  activityInterval : Int
  debugMode : Bool
  extra : List (String × String)
deriving DecidableEq, Repr

/-- The `CONFIG` defaults of the content script. -/
def defaultConfig : Config :=
  { riskLevel := "low"
    enableWebSocketMonitor := true
    enableBackgroundKeepAlive := true
    activityInterval := 300000
    debugMode := false
    extra := [] }

/-- A JSON object destined for the spread merge: each documented field
possibly present, plus any unknown fields. -/
structure ConfigPatch where
  riskLevel : Option String
  enableWebSocketMonitor : Option Bool
  enableBackgroundKeepAlive : Option Bool
  activityInterval : Option Int
  debugMode : Option Bool
  extra : List (String × String)
deriving DecidableEq, Repr

/-- The empty partial record `{}`. -/
def emptyPatch : ConfigPatch :=
  { riskLevel := none
    enableWebSocketMonitor := none
    enableBackgroundKeepAlive := none
    activityInterval := none
    debugMode := none
    extra := [] }

/-- Object-spread merge `(... base, ... p)`: a key of `p` overrides the
same key of `base`; every other key of either object is kept. -/
def mergeConfig (base : Config) (p : ConfigPatch) : Config :=
  { riskLevel := p.riskLevel.getD base.riskLevel
    enableWebSocketMonitor := p.enableWebSocketMonitor.getD base.enableWebSocketMonitor
    enableBackgroundKeepAlive := p.enableBackgroundKeepAlive.getD base.enableBackgroundKeepAlive
    activityInterval := p.activityInterval.getD base.activityInterval
    debugMode := p.debugMode.getD base.debugMode
    extra := base.extra.filter (fun kv => (p.extra.find? (fun kv2 => kv2.1 == kv.1)).isNone)
               ++ p.extra }

/-- What sits under the single `localStorage` config key, as seen through
`getItem` plus `JSON.parse`. -/
inductive StoredValue where
  | absent
  | malformed
  | record (p : ConfigPatch)
deriving DecidableEq, Repr

/-- `JSON.stringify(this.config)`: every field of the object is written,
the unknown keys included. -/
def configToPatch (c : Config) : ConfigPatch :=
  { riskLevel := some c.riskLevel
    enableWebSocketMonitor := some c.enableWebSocketMonitor
    enableBackgroundKeepAlive := some c.enableBackgroundKeepAlive
    activityInterval := some c.activityInterval
    debugMode := some c.debugMode
    extra := c.extra }

/-- The file-transfer-helper special case in `loadConfig`: when nothing was
stored, force the conservative defaults. -/
def fileHelperAdjust (isFileHelper : Bool) (c : Config) : Config :=
  if isFileHelper then
    { c with riskLevel := "low", enableBackgroundKeepAlive := true, activityInterval := 300000 }
  else c

/-- The body of `loadConfig`'s try block, before the catch: read the key,
merge a parsed record over the constructor defaults, apply the
file-helper adjustment when nothing was stored; `JSON.parse` throws on
malformed data. -/
def loadConfigRaw (isFileHelper : Bool) (sv : StoredValue) : Except JsError Config :=
  match sv with
  | StoredValue.absent => Except.ok (fileHelperAdjust isFileHelper defaultConfig)
  | StoredValue.malformed => Except.error JsError.parseError
  | StoredValue.record p => Except.ok (mergeConfig defaultConfig p)

/-- `loadConfig`: the try/catch wrapper.  On a throw the catch only warns,
so `this.config` keeps the constructor defaults. -/
def loadConfig (isFileHelper : Bool) (sv : StoredValue) : Config :=
  match loadConfigRaw isFileHelper sv with
  | Except.ok c => c
  | Except.error _ => defaultConfig

/-- The body of `saveConfig`'s try block: `setItem` of the serialized
config, which may throw. -/
def saveConfigRaw (c : Config) (writeThrows : Bool) : Except JsError StoredValue :=
  if writeThrows then Except.error JsError.storageError
  else Except.ok (StoredValue.record (configToPatch c))

/-- `saveConfig`: the try/catch wrapper.  On a throw the catch only warns;
the stored value is unchanged and no error escapes. -/
def saveConfig (c : Config) (writeThrows : Bool) (prev : StoredValue) : StoredValue :=
  match saveConfigRaw c writeThrows with
  | Except.ok sv => sv
  | Except.error _ => prev

/-- `getActivityInterval`: the tick interval in milliseconds, per risk
level, defaulting to the configured custom interval. -/
def getActivityInterval (c : Config) : Int :=
  if c.riskLevel = "low" then 300000
  else if c.riskLevel = "medium" then 120000
  else if c.riskLevel = "high" then 60000
  else c.activityInterval

/-- `getMinInactiveTime`: the minimum idle time in milliseconds before a
synthetic action is permitted, per risk level. -/
def getMinInactiveTime (c : Config) : Int :=
  if c.riskLevel = "low" then 240000
  else if c.riskLevel = "medium" then 90000
  else if c.riskLevel = "high" then 45000
  else 180000

/-- The mutable scheduler fields of the keeper object.  `timer` is the
interval of the active `setInterval` (none once cleared); `timerGen`
counts timer creations, so a restart is observable. -/
structure SchedulerState where
  config : Config
  lastActivity : Int
  isActive : Bool
  timer : Option Int
  timerGen : Nat
deriving DecidableEq, Repr

/-- `shouldSimulateActivity` of the content script: with background
keep-alive, idle time alone decides; otherwise the page must also be
visible. -/
def shouldSimulateActivity (st : SchedulerState) (now : Int) (hidden : Bool) : Bool :=
  let timeSinceLastActivity := now - st.lastActivity
  let hasBeenInactiveEnough := decide (timeSinceLastActivity > getMinInactiveTime st.config)
  if st.config.enableBackgroundKeepAlive then hasBeenInactiveEnough
  else (!hidden) && hasBeenInactiveEnough

/-- `shouldSimulateActivity` of the Firefox dist variant: visible and idle
long enough, with no background mode. -/
def shouldSimulateActivityFx (st : SchedulerState) (now : Int) (hidden : Bool) : Bool :=
  let timeSinceLastActivity := now - st.lastActivity
  let hasBeenInactiveEnough := decide (timeSinceLastActivity > getMinInactiveTime st.config)
  (!hidden) && hasBeenInactiveEnough

/-- Modelled from the spec: the reference idle-policy decision `shouldAct`
in the words of the specification - background mode makes the decision
depend on idle time only, otherwise visibility is also required. -/
def shouldActSpec (backgroundModeEnabled pageVisible : Bool) (idleFor minIdle : Int) : Bool :=
  if backgroundModeEnabled then decide (idleFor > minIdle)
  else pageVisible && decide (idleFor > minIdle)

/-- The page environment a synthetic action runs against: document
visibility, host, which primitives would throw, and the random index
`Math.floor(Math.random() * 3)`. -/
structure Env where
  hidden : Bool
  isFileHelper : Bool
  storageSetThrows : Bool
  scrollThrows : Bool
  dispatchThrows : Bool
  randIdx : Fin 3
deriving DecidableEq, Repr

/-- `simulateBackgroundActivity`: the heartbeat storage write/remove pulse;
its catch falls back to the minimal scroll, whose own throw escapes. -/
def simulateBackgroundActivity (env : Env) : Except JsError SyntheticAction :=
  if env.storageSetThrows then
    if env.scrollThrows then Except.error JsError.scrollError
    else Except.ok SyntheticAction.minimalScroll
  else Except.ok SyntheticAction.storagePulse

/-- `simulateScroll`: on the file-transfer-helper host it delegates to the
background pulse; otherwise scroll by one pixel and restore (an uncaught
scroll throw escapes). -/
def simulateScroll (env : Env) : Except JsError SyntheticAction :=
  if env.isFileHelper then simulateBackgroundActivity env
  else if env.scrollThrows then Except.error JsError.scrollError
  else Except.ok SyntheticAction.scrollRestore

/-- `simulateMouseMove`: dispatch a synthetic mousemove (uncaught). -/
def simulateMouseMove (env : Env) : Except JsError SyntheticAction :=
  if env.dispatchThrows then Except.error JsError.dispatchError
  else Except.ok SyntheticAction.mouseMove

/-- `simulateFocus`: dispatch a synthetic focus event (uncaught). -/
def simulateFocus (env : Env) : Except JsError SyntheticAction :=
  if env.dispatchThrows then Except.error JsError.dispatchError
  else Except.ok SyntheticAction.focusDispatch

/-- The if/else ladder of `simulateNaturalActivity`: hidden page with
background mode takes the background pulse, a low risk level always
scrolls, and otherwise the random index selects within the activities
array. -/
def chooseNaturalActivity (cfg : Config) (env : Env) : Except JsError SyntheticAction :=
  if env.hidden && cfg.enableBackgroundKeepAlive then
    simulateBackgroundActivity env
  else if cfg.riskLevel = "low" then
    simulateScroll env
  else if env.randIdx.val = 0 then simulateScroll env
  else if env.randIdx.val = 1 then simulateMouseMove env
  else simulateFocus env

/-- `simulateNaturalActivity`: run the chosen action, then record
`lastActivity = now`.  There is no try/catch here, so a throwing action
escapes before `lastActivity` is touched. -/
def simulateNaturalActivity (st : SchedulerState) (now : Int) (env : Env) :
    Except JsError (SchedulerState × SyntheticAction) :=
  (chooseNaturalActivity st.config env).map (fun a => ({ st with lastActivity := now }, a))

/-- One firing of the `setInterval` callback installed by
`setupPeriodicActivity`: consult the idle policy and, when permitted,
perform one synthetic action.  The callback body has no try/catch. -/
def tick (st : SchedulerState) (now : Int) (env : Env) :
    Except JsError (SchedulerState × Option SyntheticAction) :=
  if shouldSimulateActivity st now env.hidden then
    (simulateNaturalActivity st now env).map (fun r => (r.1, some r.2))
  else Except.ok (st, none)

/-- The host event loop around one tick: an uncaught throw is reported
(flag true) but does not cancel the interval, and the keeper keeps the
state it had when the throw happened. -/
def tickLoop (st : SchedulerState) (now : Int) (env : Env) :
    SchedulerState × Option SyntheticAction × Bool :=
  match tick st now env with
  | Except.ok (st', a) => (st', a, false)
  | Except.error _ => (st, none, true)

/-- `setupPeriodicActivity`: install a fresh `setInterval` sized by
`getActivityInterval`. -/
def setupPeriodicActivity (st : SchedulerState) : SchedulerState :=
  { st with timer := some (getActivityInterval st.config), timerGen := st.timerGen + 1 }

/-- `updateConfig`: merge the partial record into the config, persist it,
and - only when a timer is active - clear it and set the periodic
activity up again. -/
def updateConfig (st : SchedulerState) (p : ConfigPatch) (writeThrows : Bool)
    (stor : StoredValue) : SchedulerState × StoredValue :=
  let cfg := mergeConfig st.config p
  let stor' := saveConfig cfg writeThrows stor
  let st' : SchedulerState := { st with config := cfg }
  if st'.timer.isSome then (setupPeriodicActivity { st' with timer := none }, stor')
  else (st', stor')

/-- `stop`: clear the recurring timer. -/
def stop (st : SchedulerState) : SchedulerState :=
  { st with timer := none }

/-- `onUserActivity`: a real input event (mousedown, mousemove, keypress,
scroll, touchstart) refreshes the activity timestamp. -/
def onUserActivity (st : SchedulerState) (now : Int) : SchedulerState :=
  { st with lastActivity := now, isActive := true }

/-- `onPageActive`: refresh the activity timestamp and schedule one
synthetic action after a fixed 1000 ms delay. -/
def onPageActive (st : SchedulerState) (now : Int) : SchedulerState × Nat :=
  ({ st with isActive := true, lastActivity := now }, 1000)

/-- The `visibilitychange` listener: only a page becoming visible calls
`onPageActive`; becoming hidden does nothing.  The second component is the
delay of the one scheduled synthetic action, when any. -/
def handleVisibilityChange (st : SchedulerState) (now : Int) (hidden : Bool) :
    SchedulerState × Option Nat :=
  if hidden then (st, none)
  else
    let r := onPageActive st now
    (r.1, some r.2)

/-- A concrete running scheduler used to instantiate hypotheses. -/
def sampleState : SchedulerState :=
  { config := defaultConfig
    lastActivity := 0
    isActive := false
    timer := some 300000
    timerGen := 1 }

/-- A concrete stopped scheduler. -/
def stoppedState : SchedulerState :=
  stop sampleState

/-- A persisted record carrying one unknown field and nothing else. -/
def patchWithUnknownField : ConfigPatch :=
  { emptyPatch with extra := [("foo", "1")] }

/-- A visible page on the file-transfer-helper host with healthy
primitives. -/
def envFileHelper : Env :=
  { hidden := false
    isFileHelper := true
    storageSetThrows := false
    scrollThrows := false
    dispatchThrows := false
    randIdx := 0 }

/-- A visible ordinary page whose scroll primitive throws. -/
def envScrollThrows : Env :=
  { hidden := false
    isFileHelper := false
    storageSetThrows := false
    scrollThrows := true
    dispatchThrows := false
    randIdx := 0 }

/-- A visible ordinary page with healthy primitives. -/
def envPlain : Env :=
  { hidden := false
    isFileHelper := false
    storageSetThrows := false
    scrollThrows := false
    dispatchThrows := false
    randIdx := 0 }

/-- A hidden ordinary page whose storage write throws. -/
def envStorageThrows : Env :=
  { hidden := true
    isFileHelper := false
    storageSetThrows := true
    scrollThrows := false
    dispatchThrows := false
    randIdx := 0 }

/-- A partial record naming only the risk level. -/
def mediumPatch : ConfigPatch :=
  { emptyPatch with riskLevel := some "medium" }

/-- Merging the empty partial record changes nothing: every documented
field falls through to the base and the spread keeps every extra key. -/
theorem mergeConfig_emptyPatch (c : Config) : mergeConfig c emptyPatch = c := by
  cases c with
  | mk r w b a d e =>
    simp only [mergeConfig, emptyPatch, Option.getD_none, List.find?_nil, Option.isNone_none,
      List.append_nil, Config.mk.injEq, true_and]
    exact List.filter_eq_self.mpr (fun kv _ => rfl)

/-- Merging a fully serialized config over any base reproduces the
config. -/
theorem mergeConfig_configToPatch (base c : Config) (h : base.extra = []) :
    mergeConfig base (configToPatch c) = c := by
  cases c with
  | mk r w b a d e =>
    simp [mergeConfig, configToPatch, h]

/-- C1: the idle-policy decision of the content script coincides with the
reference `shouldAct` of the specification at every scheduler state, and
the Firefox dist variant coincides with the reference at
`backgroundModeEnabled = false`. -/
theorem shouldSimulateActivity_eq_spec (st : SchedulerState) (now : Int) (hidden : Bool) :
    shouldSimulateActivity st now hidden =
      shouldActSpec st.config.enableBackgroundKeepAlive (!hidden)
        (now - st.lastActivity) (getMinInactiveTime st.config) ∧
    shouldSimulateActivityFx st now hidden =
      shouldActSpec false (!hidden) (now - st.lastActivity) (getMinInactiveTime st.config) := by
  constructor
  · cases h : st.config.enableBackgroundKeepAlive <;>
      simp [shouldSimulateActivity, shouldActSpec, h]
  · simp [shouldSimulateActivityFx, shouldActSpec]

/-- C3: the settings store swallows storage errors: loading a missing or
malformed record yields exactly the default settings (on either host), and
a save whose storage write throws leaves the stored value untouched. -/
theorem loadConfig_defaults_and_saveConfig_noThrow :
    (∀ isFileHelper, loadConfig isFileHelper StoredValue.absent = defaultConfig) ∧
    (∀ isFileHelper, loadConfig isFileHelper StoredValue.malformed = defaultConfig) ∧
    defaultConfig =
      { riskLevel := "low", enableWebSocketMonitor := true, enableBackgroundKeepAlive := true,
        activityInterval := 300000, debugMode := false, extra := [] } ∧
    (∀ c prev, saveConfig c true prev = prev) := by
  refine ⟨fun fh => ?_, fun fh => ?_, rfl, fun c prev => rfl⟩
  · cases fh <;> rfl
  · cases fh <;> rfl

/-- C4: round-trip of the settings store: loading right after a successful
save of any settings record yields that record again. -/
theorem loadConfig_saveConfig_roundTrip (isFileHelper : Bool) (c : Config) (prev : StoredValue) :
    loadConfig isFileHelper (saveConfig c false prev) = c := by
  simp only [saveConfig, saveConfigRaw, if_neg Bool.false_ne_true, loadConfig, loadConfigRaw]
  exact mergeConfig_configToPatch defaultConfig c rfl

/-- C6: every enumerated safety profile maps to its documented pair of
durations (milliseconds), both non-negative; any other profile value falls
back to the configured custom interval for the tick and to the defined
180000 ms default for the idle threshold, the idle threshold being
non-negative for every profile value whatsoever. -/
theorem profile_durations_defined (c : Config) :
    (c.riskLevel = "low" → getActivityInterval c = 300000 ∧ getMinInactiveTime c = 240000) ∧
    (c.riskLevel = "medium" → getActivityInterval c = 120000 ∧ getMinInactiveTime c = 90000) ∧
    (c.riskLevel = "high" → getActivityInterval c = 60000 ∧ getMinInactiveTime c = 45000) ∧
    (c.riskLevel ≠ "low" → c.riskLevel ≠ "medium" → c.riskLevel ≠ "high" →
      getActivityInterval c = c.activityInterval ∧ getMinInactiveTime c = 180000) ∧
    (0 ≤ getMinInactiveTime c) ∧
    (c.riskLevel = "low" ∨ c.riskLevel = "medium" ∨ c.riskLevel = "high" →
      0 ≤ getActivityInterval c) := by
  refine ⟨fun h => ?_, fun h => ?_, fun h => ?_, fun h1 h2 h3 => ?_, ?_, fun h => ?_⟩
  · simp [getActivityInterval, getMinInactiveTime, h]
  · simp [getActivityInterval, getMinInactiveTime, h]
  · simp [getActivityInterval, getMinInactiveTime, h]
  · simp [getActivityInterval, getMinInactiveTime, h1, h2, h3]
  · unfold getMinInactiveTime
    split <;> [norm_num; skip]
    split <;> [norm_num; skip]
    split <;> norm_num
  · rcases h with h | h | h <;> simp [getActivityInterval, h]

/-- C6 witness: the durations theorem applied at the default settings,
whose profile is the enumerated value low. -/
theorem profile_durations_defined_witness :
    getActivityInterval defaultConfig = 300000 ∧ getMinInactiveTime defaultConfig = 240000 :=
  (profile_durations_defined defaultConfig).1 rfl

/-- A successful `simulateNaturalActivity` differs from the prior state
only in `lastActivity`, which becomes `now`. -/
theorem simulateNaturalActivity_ok_state (st : SchedulerState) (now : Int) (env : Env)
    (st' : SchedulerState) (a : SyntheticAction)
    (h : simulateNaturalActivity st now env = Except.ok (st', a)) :
    st' = { st with lastActivity := now } := by
  unfold simulateNaturalActivity at h
  cases hc : chooseNaturalActivity st.config env with
  | ok b =>
    rw [hc] at h
    simp only [Except.map, Except.ok.injEq, Prod.mk.injEq] at h
    exact h.1.symm
  | error e =>
    rw [hc] at h
    simp [Except.map] at h

/-- A successful tick leaves `config`, `timer` and `timerGen` exactly as
they were. -/
theorem tick_ok_frame (st : SchedulerState) (now : Int) (env : Env)
    (st' : SchedulerState) (a : Option SyntheticAction)
    (h : tick st now env = Except.ok (st', a)) :
    st'.config = st.config ∧ st'.timer = st.timer ∧ st'.timerGen = st.timerGen := by
  unfold tick at h
  by_cases hs : shouldSimulateActivity st now env.hidden = true
  · rw [if_pos hs] at h
    cases hsim : simulateNaturalActivity st now env with
    | ok r =>
      rw [hsim] at h
      simp only [Except.map, Except.ok.injEq, Prod.mk.injEq] at h
      have hst := simulateNaturalActivity_ok_state st now env r.1 r.2 (by rw [hsim])
      rw [← h.1, hst]
      exact ⟨rfl, rfl, rfl⟩
    | error e =>
      rw [hsim] at h
      simp [Except.map] at h
  · rw [if_neg hs] at h
    simp only [Except.ok.injEq, Prod.mk.injEq] at h
    rw [← h.1]
    exact ⟨rfl, rfl, rfl⟩

/-- C5: updating with the empty partial record keeps every settings field
and restarts the recurring timer (a fresh interval generation, sized by
the unchanged profile), whenever a timer is active. -/
theorem updateConfig_emptyPatch_restarts (st : SchedulerState) (writeThrows : Bool)
    (stor : StoredValue) (h : st.timer.isSome = true) :
    (updateConfig st emptyPatch writeThrows stor).1.config = st.config ∧
    (updateConfig st emptyPatch writeThrows stor).1.timer =
      some (getActivityInterval st.config) ∧
    (updateConfig st emptyPatch writeThrows stor).1.timerGen = st.timerGen + 1 := by
  simp [updateConfig, mergeConfig_emptyPatch, h, setupPeriodicActivity]

/-- C5 witness: the empty update applied to a concrete running scheduler
keeps the default settings and bumps the timer generation. -/
theorem updateConfig_emptyPatch_restarts_witness :
    (updateConfig sampleState emptyPatch false StoredValue.absent).1.config = defaultConfig ∧
    (updateConfig sampleState emptyPatch false StoredValue.absent).1.timer = some 300000 ∧
    (updateConfig sampleState emptyPatch false StoredValue.absent).1.timerGen = 2 := by
  have h := updateConfig_emptyPatch_restarts sampleState false StoredValue.absent rfl
  exact ⟨h.1, h.2.1, h.2.2⟩

/-- C10: with the timer cleared, `updateConfig` merges and persists the
settings but starts no timer: the scheduler stays stopped, the other
scheduler fields are untouched, and a settings field absent from the
partial record keeps its old value. -/
theorem updateConfig_stopped_frame (st : SchedulerState) (p : ConfigPatch)
    (writeThrows : Bool) (stor : StoredValue) (h : st.timer = none) :
    (updateConfig st p writeThrows stor).1.timer = none ∧
    (updateConfig st p writeThrows stor).1.timerGen = st.timerGen ∧
    (updateConfig st p writeThrows stor).1.config = mergeConfig st.config p ∧
    (updateConfig st p writeThrows stor).1.lastActivity = st.lastActivity ∧
    (updateConfig st p writeThrows stor).1.isActive = st.isActive ∧
    (updateConfig st p false stor).2 =
      StoredValue.record (configToPatch (mergeConfig st.config p)) ∧
    (p.riskLevel = none →
      (updateConfig st p writeThrows stor).1.config.riskLevel = st.config.riskLevel) ∧
    (p.enableWebSocketMonitor = none →
      (updateConfig st p writeThrows stor).1.config.enableWebSocketMonitor =
        st.config.enableWebSocketMonitor) ∧
    (p.enableBackgroundKeepAlive = none →
      (updateConfig st p writeThrows stor).1.config.enableBackgroundKeepAlive =
        st.config.enableBackgroundKeepAlive) ∧
    (p.activityInterval = none →
      (updateConfig st p writeThrows stor).1.config.activityInterval =
        st.config.activityInterval) ∧
    (p.debugMode = none →
      (updateConfig st p writeThrows stor).1.config.debugMode = st.config.debugMode) := by
  refine ⟨?_, ?_, ?_, ?_, ?_, ?_, fun hp => ?_, fun hp => ?_, fun hp => ?_, fun hp => ?_,
    fun hp => ?_⟩ <;>
    simp [updateConfig, h, saveConfig, saveConfigRaw] <;>
    simp [mergeConfig, *]

/-- C10 witness: updating a concrete stopped scheduler with a partial
record naming only the risk level leaves it stopped and keeps the debug
flag. -/
theorem updateConfig_stopped_frame_witness :
    (updateConfig stoppedState mediumPatch false StoredValue.absent).1.timer = none ∧
    (updateConfig stoppedState mediumPatch false StoredValue.absent).1.config.debugMode =
      false := by
  have h := updateConfig_stopped_frame stoppedState mediumPatch false StoredValue.absent rfl
  exact ⟨h.1, h.2.2.2.2.2.2.2.2.2.2 rfl⟩

/-- C8: a real input event unconditionally refreshes `lastActivity`; a
page-becoming-visible event refreshes it and schedules exactly one
synthetic action after the fixed 1000 ms delay, with no idle condition; a
page-becoming-hidden event changes nothing and schedules nothing. -/
theorem input_and_visibility_events (st : SchedulerState) (now : Int) :
    (onUserActivity st now).lastActivity = now ∧
    (handleVisibilityChange st now false).1.lastActivity = now ∧
    (handleVisibilityChange st now false).2 = some 1000 ∧
    handleVisibilityChange st now true = (st, none) :=
  ⟨rfl, rfl, rfl, rfl⟩

/-- C2 counterexample: on the file-transfer-helper host with the page
visible, profile low and healthy storage, the performed action is the
storage pulse, not a scroll-and-restore. -/
theorem fileHelper_low_performs_pulse_not_scroll :
    simulateNaturalActivity sampleState 1000 envFileHelper =
      Except.ok ({ sampleState with lastActivity := 1000 }, SyntheticAction.storagePulse) ∧
    SyntheticAction.storagePulse ≠ SyntheticAction.scrollRestore := by
  exact ⟨rfl, by decide⟩

/-- C2 amended: the synthetic-action selection policy of
`simulateNaturalActivity`, with the file-transfer-helper substitution: a
hidden page with background mode performs the storage pulse (minimal
scroll only when storage throws); otherwise profile low performs a
scroll-and-restore except on the file-helper host, where the scroll is
replaced by the storage pulse; otherwise the random index selects among
scroll-and-restore, mouse-move dispatch and focus dispatch; every
successful run sets `lastActivity` to now. -/
theorem naturalActivity_selection (st : SchedulerState) (now : Int) (env : Env) :
    (env.hidden = true → st.config.enableBackgroundKeepAlive = true →
      env.storageSetThrows = false →
      simulateNaturalActivity st now env =
        Except.ok ({ st with lastActivity := now }, SyntheticAction.storagePulse)) ∧
    (env.hidden = true → st.config.enableBackgroundKeepAlive = true →
      env.storageSetThrows = true → env.scrollThrows = false →
      simulateNaturalActivity st now env =
        Except.ok ({ st with lastActivity := now }, SyntheticAction.minimalScroll)) ∧
    ((env.hidden && st.config.enableBackgroundKeepAlive) = false →
      st.config.riskLevel = "low" → env.isFileHelper = false → env.scrollThrows = false →
      simulateNaturalActivity st now env =
        Except.ok ({ st with lastActivity := now }, SyntheticAction.scrollRestore)) ∧
    ((env.hidden && st.config.enableBackgroundKeepAlive) = false →
      st.config.riskLevel = "low" → env.isFileHelper = true → env.storageSetThrows = false →
      simulateNaturalActivity st now env =
        Except.ok ({ st with lastActivity := now }, SyntheticAction.storagePulse)) ∧
    ((env.hidden && st.config.enableBackgroundKeepAlive) = false →
      st.config.riskLevel ≠ "low" → env.isFileHelper = false → env.scrollThrows = false →
      env.dispatchThrows = false →
      simulateNaturalActivity st now env =
        Except.ok ({ st with lastActivity := now },
          if env.randIdx.val = 0 then SyntheticAction.scrollRestore
          else if env.randIdx.val = 1 then SyntheticAction.mouseMove
          else SyntheticAction.focusDispatch)) ∧
    (∀ st' a, simulateNaturalActivity st now env = Except.ok (st', a) →
      st'.lastActivity = now) := by
  refine ⟨fun h1 h2 h3 => ?_, fun h1 h2 h3 h4 => ?_, fun h1 h2 h3 h4 => ?_,
    fun h1 h2 h3 h4 => ?_, fun h1 h2 h3 h4 h5 => ?_, fun st' a h => ?_⟩
  · simp [simulateNaturalActivity, chooseNaturalActivity, simulateBackgroundActivity,
      h1, h2, h3, Except.map]
  · simp [simulateNaturalActivity, chooseNaturalActivity, simulateBackgroundActivity,
      h1, h2, h3, h4, Except.map]
  · simp [simulateNaturalActivity, chooseNaturalActivity, simulateScroll,
      h1, h2, h3, h4, Except.map]
  · simp [simulateNaturalActivity, chooseNaturalActivity, simulateScroll,
      simulateBackgroundActivity, h1, h2, h3, h4, Except.map]
  · by_cases hr0 : env.randIdx.val = 0
    · simp [simulateNaturalActivity, chooseNaturalActivity, simulateScroll,
        h1, h2, h3, h4, hr0, Except.map]
    · by_cases hr1 : env.randIdx.val = 1
      · simp [simulateNaturalActivity, chooseNaturalActivity, simulateMouseMove,
          h1, h2, h5, hr0, hr1, Except.map]
      · simp [simulateNaturalActivity, chooseNaturalActivity, simulateFocus,
          h1, h2, h5, hr0, hr1, Except.map]
  · exact congrArg SchedulerState.lastActivity
      (simulateNaturalActivity_ok_state st now env st' a h)

/-- C2 amended witness: the selection theorem applied to a visible
ordinary page with profile low. -/
theorem naturalActivity_selection_witness :
    simulateNaturalActivity sampleState 1000 envPlain =
      Except.ok ({ sampleState with lastActivity := 1000 }, SyntheticAction.scrollRestore) := by
  have h := naturalActivity_selection sampleState 1000 envPlain
  exact h.2.2.1 rfl rfl rfl rfl

/-- C7 counterexample: at a visible, long-idle default-profile state whose
scroll primitive throws, the tick callback propagates the error - the
scheduler contains no try/catch around the synthetic action. -/
theorem tick_scroll_error_escapes :
    tick sampleState 240001 envScrollThrows = Except.error JsError.scrollError := by
  rfl

/-- C7 amended: whatever a tick does, the recurring timer and the settings
survive it - the host interval is not cancelled by an uncaught throw, and
a storage failure inside the background pulse is caught and swallowed
(minimal-scroll fallback); but a scroll or dispatch error escapes the tick
handler, as the counterexample shows. -/
theorem tick_error_containment (st : SchedulerState) (now : Int) (env : Env) :
    ((tickLoop st now env).1.config = st.config) ∧
    ((tickLoop st now env).1.timer = st.timer) ∧
    ((tickLoop st now env).1.timerGen = st.timerGen) ∧
    (env.storageSetThrows = true → env.scrollThrows = false →
      st.config.enableBackgroundKeepAlive = true → env.hidden = true →
      ∃ r, tick st now env = Except.ok r) := by
  have hframe : (tickLoop st now env).1.config = st.config ∧
      (tickLoop st now env).1.timer = st.timer ∧
      (tickLoop st now env).1.timerGen = st.timerGen := by
    unfold tickLoop
    cases htick : tick st now env with
    | ok r =>
      have h := tick_ok_frame st now env r.1 r.2 (by rw [htick])
      simp only []
      exact ⟨h.1, h.2.1, h.2.2⟩
    | error e => exact ⟨rfl, rfl, rfl⟩
  refine ⟨hframe.1, hframe.2.1, hframe.2.2, fun h1 h2 h3 h4 => ?_⟩
  by_cases hs : shouldSimulateActivity st now env.hidden = true
  · refine ⟨({ st with lastActivity := now }, some SyntheticAction.minimalScroll), ?_⟩
    rw [h4] at hs
    simp [tick, hs, simulateNaturalActivity, chooseNaturalActivity,
      simulateBackgroundActivity, h1, h2, h3, h4, Except.map]
  · exact ⟨(st, none), by simp [tick, hs]⟩

/-- C7 amended witness: a hidden background-mode tick whose storage write
throws still completes without an escaping error. -/
theorem tick_error_containment_witness :
    ∃ r, tick sampleState 5 envStorageThrows = Except.ok r := by
  have h := tick_error_containment sampleState 5 envStorageThrows
  exact h.2.2.2 rfl rfl rfl rfl

/-- C9 counterexample: loading a persisted record that carries only the
unknown field foo yields in-memory settings in which foo appears - the
spread merge keeps unknown keys instead of ignoring them. -/
theorem loadConfig_keeps_unknown_field :
    (loadConfig false (StoredValue.record patchWithUnknownField)).extra = [("foo", "1")] ∧
    (loadConfig false (StoredValue.record patchWithUnknownField)).extra ≠ [] := by
  have h : (loadConfig false (StoredValue.record patchWithUnknownField)).extra =
      [("foo", "1")] := rfl
  exact ⟨h, by rw [h]; simp⟩

/-- C9 amended: on load, a documented field missing from the persisted
record takes its documented default, while unknown fields are retained in
the in-memory settings by the spread merge; they are inert - no
duration or idle-policy computation reads them. -/
theorem loadConfig_merge_behavior (isFileHelper : Bool) (p : ConfigPatch) :
    ((loadConfig isFileHelper (StoredValue.record p)).extra = p.extra) ∧
    (p.riskLevel = none →
      (loadConfig isFileHelper (StoredValue.record p)).riskLevel = "low") ∧
    (p.enableWebSocketMonitor = none →
      (loadConfig isFileHelper (StoredValue.record p)).enableWebSocketMonitor = true) ∧
    (p.enableBackgroundKeepAlive = none →
      (loadConfig isFileHelper (StoredValue.record p)).enableBackgroundKeepAlive = true) ∧
    (p.activityInterval = none →
      (loadConfig isFileHelper (StoredValue.record p)).activityInterval = 300000) ∧
    (p.debugMode = none →
      (loadConfig isFileHelper (StoredValue.record p)).debugMode = false) ∧
    (∀ c e, getActivityInterval { c with extra := e } = getActivityInterval c ∧
      getMinInactiveTime { c with extra := e } = getMinInactiveTime c) := by
  refine ⟨?_, fun hp => ?_, fun hp => ?_, fun hp => ?_, fun hp => ?_, fun hp => ?_,
    fun c e => ⟨rfl, rfl⟩⟩ <;>
    simp [loadConfig, loadConfigRaw, mergeConfig, defaultConfig, *]

/-- C9 amended witness: the merge theorem applied to the record carrying
only the unknown field foo - every documented field takes its default. -/
theorem loadConfig_merge_behavior_witness :
    (loadConfig false (StoredValue.record patchWithUnknownField)).riskLevel = "low" ∧
    (loadConfig false (StoredValue.record patchWithUnknownField)).activityInterval = 300000 := by
  have h := loadConfig_merge_behavior false patchWithUnknownField
  exact ⟨h.2.1 rfl, h.2.2.2.2.1 rfl⟩

end SessionKeeper
